import Mathlib

/-!
Shallow embedding of the message-dispatch and command-execution pipeline of
the Twitch bot framework (twitchbot/bots/basebot.py and twitchbot/enums.py),
together with theorems checking the specification's claims about the
permission/disabled/whitelist/cooldown gates, the event fan-out and the
shutdown unload loop.

Collaborator calls that the pipeline makes (permission store, cooldown store,
whitelist store, mod/ad-hoc event triggers, the command body itself) are
modelled as fields of an environment record holding the answer each call
returns for the one invocation under analysis; the functions below record,
for that invocation, every externally visible effect (replies, command body
execution, cooldown write, which stores were queried).
-/

namespace TwitchBot

/-- Message types, mirroring `MessageType` in twitchbot/enums.py. -/
inductive MessageType
  | PRIVMSG
  | WHISPER
  | COMMAND
  | PING
  | USER_JOIN
  | USER_PART
  | SUBSCRIPTION
  | RAID
  | USER_NOTICE
  | CHANNEL_POINTS_REDEMPTION
  | BITS
  | NONE
deriving DecidableEq, Repr

/-- Fan-out event names, mirroring `Event` in twitchbot/enums.py. -/
inductive Event
  | on_before_command_execute
  | on_after_command_execute
  | on_bits_donated
  | on_channel_subscription
  | on_channel_raided
  | on_channel_joined
  | on_connected
  | on_privmsg_received
  | on_privmsg_sent
  | on_whisper_received
  | on_whisper_sent
  | on_permission_check
  | on_raw_message
  | on_user_join
  | on_user_part
  | on_mod_reloaded
  | on_channel_points_redemption
deriving DecidableEq, Repr

/-- `CommandContext` is an IntFlag in twitchbot/enums.py: CHANNEL = 1. -/
def CommandContext.CHANNEL : Nat := 1

/-- `CommandContext.WHISPER` = 2 in twitchbot/enums.py. -/
def CommandContext.WHISPER : Nat := 2

/-- `CommandContext.BOTH` = CHANNEL or-ed with WHISPER = 3. -/
def CommandContext.BOTH : Nat := 3

/-- Parsed tag metadata of a message (the fields basebot.py reads). -/
structure Tags where
  bits : Nat
  raid_viewer_count : Nat
deriving DecidableEq, Repr

/-- One parsed inbound protocol line, with the attributes basebot.py reads.
The Message class itself lives outside basebot.py, so only the fields the
dispatch pipeline consumes are modelled. -/
structure Message where
  type : MessageType
  author : String
  channel_name : String
  parts : List String
  tags : Tags
  mention : String
deriving DecidableEq, Repr

/-- Modelled from the spec: derived predicate of the Message collaborator —
a message is a whisper when its type is WHISPER (the Message class is not
under src/). -/
def Message.is_whisper (m : Message) : Bool :=
  match m.type with
  | MessageType.WHISPER => true
  | _ => false

/-- Modelled from the spec: derived predicate of the Message collaborator —
a message is a privmsg when its type is PRIVMSG. -/
def Message.is_privmsg (m : Message) : Bool :=
  match m.type with
  | MessageType.PRIVMSG => true
  | _ => false

/-- Modelled from the spec: derived predicate of the Message collaborator —
user messages are exactly privmsgs and whispers (spec section 3). -/
def Message.is_user_message (m : Message) : Bool :=
  Message.is_privmsg m || Message.is_whisper m

/-- A command descriptor, with the attributes basebot.py reads.
`usage` models the command's help/syntax string; `is_custom` models
`isinstance(cmd, CustomCommandAction)`. -/
structure Command where
  name : String
  fullname : String
  context : Nat
  permission : Option String
  cooldown : Nat
  cooldown_bypass : String
  usage : String
  is_custom : Bool
deriving DecidableEq, Repr

/-- Environment of one `_run_command` invocation: the answer every
collaborator call would return for this (msg, cmd) pair.
`pfx` models the configured command prefix (cfg.prefix). -/
structure Env where
  pfx : String
  has_permission : String → String → String → Bool
  is_command_disabled : String → String → Bool
  is_command_whitelisted : String → Bool
  send_message_on_command_whitelist_deny : Bool
  is_command_on_cooldown : String → String → Nat → Bool
  get_time_since_execute : String → String → Nat
  on_permission_check : Bool
  mod_permission_results : List Bool
  adhoc_permission_results : List Bool
  on_before_command_execute : Bool
  mod_before_results : List Bool
  event_before_results : List Bool
  execute_raises : Option String

/-- Modelled from the spec: the static permission component of the
permission composite — `perms.has_permission(channel, user, cmd.permission)`
when `cmd.permission` is set, skipped (treated as allowed) when it is unset
(spec section 4.3). This component is not in basebot.py itself. -/
def static_permission_check (env : Env) (msg : Message) (cmd : Command) : Bool :=
  match cmd.permission with
  | none => true
  | some p => env.has_permission msg.channel_name msg.author p

/-- Modelled from the spec: the result list of
`trigger_event(Event.on_permission_check, msg, cmd)` — the ad-hoc subscriber
composite, which per spec section 4.3 includes the static permission check
alongside the other ad-hoc subscribers (the events module is not under src/). -/
def trigger_event_on_permission_check (env : Env) (msg : Message) (cmd : Command) : List Bool :=
  static_permission_check env msg cmd :: env.adhoc_permission_results

/-- Gate 1 of `_run_command` (basebot.py lines 211-215): the bot hook, all
mod hooks, and all ad-hoc subscriber hooks for on_permission_check must
return true. -/
def permission_gate_passes (env : Env) (msg : Message) (cmd : Command) : Bool :=
  env.on_permission_check
    && (env.mod_permission_results).all id
    && (trigger_event_on_permission_check env msg cmd).all id

/-- Gate 2 of `_run_command` (line 220): a non-custom command disabled for
the channel is rejected. -/
def disabled_gate_fails (env : Env) (msg : Message) (cmd : Command) : Bool :=
  !cmd.is_custom && env.is_command_disabled msg.channel_name cmd.fullname

/-- Gate 3 of `_run_command` (line 224): a non-custom command missing from
the command whitelist is rejected. -/
def whitelist_gate_fails (env : Env) (cmd : Command) : Bool :=
  !cmd.is_custom && !env.is_command_whitelisted cmd.name

/-- Line 229: `perms.has_permission(msg.channel_name, msg.author, cmd.cooldown_bypass)`. -/
def has_cooldown_bypass_permission (env : Env) (msg : Message) (cmd : Command) : Bool :=
  env.has_permission msg.channel_name msg.author cmd.cooldown_bypass

/-- Gate 4 of `_run_command` (lines 230-231): without the bypass permission,
a command still on cooldown is rejected. The bypass short-circuits the
cooldown-store query. -/
def cooldown_gate_fails (env : Env) (msg : Message) (cmd : Command) : Bool :=
  !has_cooldown_bypass_permission env msg cmd
    && env.is_command_on_cooldown msg.channel_name cmd.fullname cmd.cooldown

/-- Gate 5 of `_run_command` (lines 235-238): the bot hook, all mod hooks and
all ad-hoc subscriber hooks for on_before_command_execute must return true. -/
def before_execute_gate_passes (env : Env) : Bool :=
  env.on_before_command_execute
    && (env.mod_before_results).all id
    && (env.event_before_results).all id

/-- Renders an optional permission the way Python renders it in an f-string. -/
def perm_display : Option String → String
  | none => "None"
  | some p => p

/-- Reply text of the permission denial (basebot.py line 218). -/
def permission_denied_text (msg : Message) (cmd : Command) : String :=
  s!"you do not have permission to execute {cmd.fullname} in #{msg.channel_name}, permission required: {perm_display cmd.permission}"

/-- Reply text of the disabled-command denial (line 221). -/
def disabled_text (cmd : Command) : String :=
  s!"{cmd.fullname} is disabled for this channel"

/-- Reply text of the whitelist denial (line 226). -/
def whitelist_deny_text (msg : Message) (cmd : Command) : String :=
  s!"{msg.mention} \"{cmd.fullname}\" is not enabled in the command whitelist"

/-- The seconds-left figure of the cooldown denial (line 233). -/
def seconds_left (env : Env) (msg : Message) (cmd : Command) : Int :=
  (cmd.cooldown : Int) - (env.get_time_since_execute msg.channel_name cmd.fullname : Int)

/-- Reply text of the cooldown denial (lines 232-233). -/
def cooldown_text (env : Env) (msg : Message) (cmd : Command) : String :=
  s!"{cmd.fullname} is on cooldown, seconds left: {seconds_left env msg cmd}"

/-- Reply text of `_send_cmd_help` (lines 252-254). -/
def cmd_help_text (env : Env) (cmd : Command) (reason : String) : String :=
  s!"{reason} - \"{cmd.fullname} {cmd.usage}\" - do \"{env.pfx}help {cmd.fullname}\" for more details"

/-- One `msg.reply(...)` call: the whisper keyword flag and the text. -/
structure Reply where
  whisper : Bool
  text : String
deriving DecidableEq, Repr

/-- The five gates, as trace labels. -/
inductive Gate
  | permission
  | disabled
  | whitelist
  | cooldown
  | preexec
deriving DecidableEq, Repr

/-- Externally visible outcome of one `_run_command` invocation:
which replies were sent, whether the command body was invoked, whether the
cooldown record was written, which gates were evaluated (in order), and
which collaborator stores were actually queried. -/
structure RunResult where
  replies : List Reply
  executed : Bool
  cooldown_written : Bool
  gates_evaluated : List Gate
  disabled_queried : Bool
  whitelist_queried : Bool
  bypass_queried : Bool
  cooldown_queried : Bool
  before_hooks_run : Bool
  after_hooks_run : Bool
deriving DecidableEq, Repr

/-- Shallow embedding of `BaseBot._run_command` (basebot.py lines 210-250),
branch for branch: permission composite, disabled check, whitelist check,
cooldown check (with bypass short-circuit), before-execute hooks, then the
body inside try/except InvalidArgumentsError, with the cooldown write after
a successful body unless bypassed. -/
def run_command (env : Env) (msg : Message) (cmd : Command) : RunResult :=
  if !permission_gate_passes env msg cmd then
    { replies := [{ whisper := true, text := permission_denied_text msg cmd }],
      executed := false, cooldown_written := false,
      gates_evaluated := [Gate.permission],
      disabled_queried := false, whitelist_queried := false,
      bypass_queried := false, cooldown_queried := false,
      before_hooks_run := false, after_hooks_run := false }
  else if disabled_gate_fails env msg cmd then
    { replies := [{ whisper := false, text := disabled_text cmd }],
      executed := false, cooldown_written := false,
      gates_evaluated := [Gate.permission, Gate.disabled],
      disabled_queried := !cmd.is_custom, whitelist_queried := false,
      bypass_queried := false, cooldown_queried := false,
      before_hooks_run := false, after_hooks_run := false }
  else if whitelist_gate_fails env cmd then
    { replies :=
        if env.send_message_on_command_whitelist_deny then
          [{ whisper := false, text := whitelist_deny_text msg cmd }]
        else [],
      executed := false, cooldown_written := false,
      gates_evaluated := [Gate.permission, Gate.disabled, Gate.whitelist],
      disabled_queried := !cmd.is_custom, whitelist_queried := !cmd.is_custom,
      bypass_queried := false, cooldown_queried := false,
      before_hooks_run := false, after_hooks_run := false }
  else if cooldown_gate_fails env msg cmd then
    { replies := [{ whisper := false, text := cooldown_text env msg cmd }],
      executed := false, cooldown_written := false,
      gates_evaluated := [Gate.permission, Gate.disabled, Gate.whitelist, Gate.cooldown],
      disabled_queried := !cmd.is_custom, whitelist_queried := !cmd.is_custom,
      bypass_queried := true, cooldown_queried := true,
      before_hooks_run := false, after_hooks_run := false }
  else if !before_execute_gate_passes env then
    { replies := [],
      executed := false, cooldown_written := false,
      gates_evaluated := [Gate.permission, Gate.disabled, Gate.whitelist, Gate.cooldown, Gate.preexec],
      disabled_queried := !cmd.is_custom, whitelist_queried := !cmd.is_custom,
      bypass_queried := true,
      cooldown_queried := !has_cooldown_bypass_permission env msg cmd,
      before_hooks_run := true, after_hooks_run := false }
  else
    match env.execute_raises with
    | some reason =>
      { replies := [{ whisper := false, text := cmd_help_text env cmd reason }],
        executed := true, cooldown_written := false,
        gates_evaluated := [Gate.permission, Gate.disabled, Gate.whitelist, Gate.cooldown, Gate.preexec],
        disabled_queried := !cmd.is_custom, whitelist_queried := !cmd.is_custom,
        bypass_queried := true,
        cooldown_queried := !has_cooldown_bypass_permission env msg cmd,
        before_hooks_run := true, after_hooks_run := false }
    | none =>
      { replies := [],
        executed := true,
        cooldown_written := !has_cooldown_bypass_permission env msg cmd,
        gates_evaluated := [Gate.permission, Gate.disabled, Gate.whitelist, Gate.cooldown, Gate.preexec],
        disabled_queried := !cmd.is_custom, whitelist_queried := !cmd.is_custom,
        bypass_queried := true,
        cooldown_queried := !has_cooldown_bypass_permission env msg cmd,
        before_hooks_run := true, after_hooks_run := true }

/-- A persisted per-channel custom command record, with the fields the
lookup path reads. -/
structure DBCustomCommand where
  name : String
  response : String
deriving DecidableEq, Repr

/-- Modelled from the spec: `CustomCommandAction` wraps a persisted
custom-command record behind the Command execution contract (spec section 3;
the command module is not under src/). Marked `is_custom` so the disabled
and whitelist gates skip it. -/
def CustomCommandAction (c : DBCustomCommand) : Command :=
  { name := c.name, fullname := c.name, context := CommandContext.BOTH,
    permission := none, cooldown := 0, cooldown_bypass := "",
    usage := "", is_custom := true }

/-- Environment of one dispatch-loop iteration: the configured nick, the
built-in command registry and the custom-command store. -/
structure LoopEnv where
  nick : String
  commands : String → Option Command
  get_custom_command : String → String → Option DBCustomCommand

/-- Character-wise ASCII lowercasing, modelling the `.lower()` call on the
first message token. -/
def py_lower (s : String) : String :=
  String.mk (s.data.map Char.toLower)

/-- Shallow embedding of `BaseBot.get_command_from_msg` (basebot.py lines
192-208): exact lowercase match in the built-in registry first, then the
channel-scoped custom-command store wrapped in a CustomCommandAction. -/
def get_command_from_msg (env : LoopEnv) (msg : Message) : Option Command :=
  match env.commands (py_lower (msg.parts.headD "")) with
  | some cmd => some cmd
  | none =>
    match env.get_custom_command msg.channel_name (py_lower (msg.parts.headD "")) with
    | some c => some (CustomCommandAction c)
    | none => none

/-- The three listener populations of the fan-out bus. -/
inductive Population
  | bot
  | mod
  | adhoc
deriving DecidableEq, Repr

/-- Argument shapes passed to event deliveries, named after the expression
the dispatch loop passes. -/
inductive Arg
  | msg
  | bits
  | channel
  | author
  | reward
  | raid_viewer_count
deriving DecidableEq, Repr

/-- One event delivery: the event name and the argument list passed. -/
structure Delivery where
  event : Event
  args : List Arg
deriving DecidableEq, Repr

/-- The unconditional on_raw_message deliveries (basebot.py lines 300-302):
bot callback, mod delivery and ad-hoc delivery, each passed the message. -/
def raw_message_deliveries : List (Population × Delivery) :=
  [(Population.bot, { event := Event.on_raw_message, args := [Arg.msg] }),
   (Population.mod, { event := Event.on_raw_message, args := [Arg.msg] }),
   (Population.adhoc, { event := Event.on_raw_message, args := [Arg.msg] })]

/-- Externally visible outcome of one dispatch-loop iteration for one
message: the unconditional raw-message deliveries, whether command lookup
ran and what it found, whether `_run_command` was scheduled, the
type-specific deliveries to each population, and whether a PONG was sent. -/
structure DispatchResult where
  raw_deliveries : List (Population × Delivery)
  command_lookup_performed : Bool
  command_found : Option Command
  command_run : Bool
  bot_delivery : Option Delivery
  mod_delivery : Option Delivery
  adhoc_delivery : Option Delivery
  pong_sent : Bool
deriving DecidableEq, Repr

/-- Line 309-310: a found command runs only if the message context is
covered by the command's CommandContext flag. -/
def command_context_matches (msg : Message) (cmd : Command) : Bool :=
  (Message.is_whisper msg && (cmd.context &&& CommandContext.WHISPER != 0))
    || (Message.is_privmsg msg && (cmd.context &&& CommandContext.CHANNEL != 0))

/-- Lines 305-307: the command lookup is performed only for user messages
not authored by the bot's own nick; otherwise `cmd` is None. -/
def looked_up_command (env : LoopEnv) (msg : Message) : Option Command :=
  if Message.is_user_message msg && msg.author != env.nick then
    get_command_from_msg env msg
  else none

/-- Line 309: the command branch fires when a command was found and the
CommandContext test passes. -/
def command_will_run (env : LoopEnv) (msg : Message) : Bool :=
  match looked_up_command env msg with
  | some c => command_context_matches msg c
  | none => false

/-- The dispatch outcome common to every branch: the unconditional
on_raw_message fan-out and the guarded lookup, with no type-specific
reaction yet. -/
def dispatch_base (env : LoopEnv) (msg : Message) : DispatchResult :=
  { raw_deliveries := raw_message_deliveries,
    command_lookup_performed := Message.is_user_message msg && msg.author != env.nick,
    command_found := looked_up_command env msg,
    command_run := false,
    bot_delivery := none, mod_delivery := none, adhoc_delivery := none,
    pong_sent := false }

/-- Shallow embedding of one iteration of `BaseBot.mainloop` after the
Message is built (basebot.py lines 300-379): the unconditional
on_raw_message fan-out, the guarded command lookup (lines 305-307), the
command branch guarded by the CommandContext test (lines 309-312), then the
elif chain on the message type (lines 314-370), rendered as a match since
the elif conditions test distinct MessageType constructors. -/
def dispatch (env : LoopEnv) (msg : Message) : DispatchResult :=
  if command_will_run env msg then
    { dispatch_base env msg with command_run := true }
  else
    match msg.type with
    | MessageType.WHISPER =>
      { dispatch_base env msg with
        bot_delivery := some { event := Event.on_whisper_received, args := [Arg.msg] },
        mod_delivery := some { event := Event.on_whisper_received, args := [Arg.msg] },
        adhoc_delivery := some { event := Event.on_whisper_received, args := [Arg.msg] } }
    | MessageType.PRIVMSG =>
      { dispatch_base env msg with
        bot_delivery := some { event := Event.on_privmsg_received, args := [Arg.msg] },
        mod_delivery := some { event := Event.on_privmsg_received, args := [Arg.msg] },
        adhoc_delivery := some { event := Event.on_privmsg_received, args := [Arg.msg] } }
    | MessageType.USER_JOIN =>
      if msg.author == env.nick then
        { dispatch_base env msg with
          bot_delivery := some { event := Event.on_channel_joined, args := [Arg.channel] },
          mod_delivery := some { event := Event.on_channel_joined, args := [Arg.channel] },
          adhoc_delivery := some { event := Event.on_channel_joined, args := [Arg.channel] } }
      else
        { dispatch_base env msg with
          bot_delivery := some { event := Event.on_user_join, args := [Arg.author, Arg.channel] },
          mod_delivery := some { event := Event.on_user_join, args := [Arg.author, Arg.channel] },
          adhoc_delivery := some { event := Event.on_user_join, args := [Arg.author, Arg.channel] } }
    | MessageType.USER_PART =>
      { dispatch_base env msg with
        bot_delivery := some { event := Event.on_user_part, args := [Arg.author, Arg.channel] },
        mod_delivery := some { event := Event.on_user_part, args := [Arg.author, Arg.channel] },
        adhoc_delivery := some { event := Event.on_user_part, args := [Arg.author, Arg.channel] } }
    | MessageType.SUBSCRIPTION =>
      { dispatch_base env msg with
        bot_delivery := some { event := Event.on_channel_subscription, args := [Arg.author, Arg.channel, Arg.msg] },
        mod_delivery := some { event := Event.on_channel_subscription, args := [Arg.author, Arg.channel, Arg.msg] },
        adhoc_delivery := some { event := Event.on_channel_subscription, args := [Arg.author, Arg.channel, Arg.msg] } }
    | MessageType.RAID =>
      { dispatch_base env msg with
        bot_delivery := some { event := Event.on_channel_raided, args := [Arg.channel, Arg.author, Arg.raid_viewer_count] },
        mod_delivery := some { event := Event.on_channel_raided, args := [Arg.channel, Arg.author, Arg.raid_viewer_count] },
        adhoc_delivery := some { event := Event.on_channel_raided, args := [Arg.channel, Arg.author, Arg.raid_viewer_count] } }
    | MessageType.PING =>
      { dispatch_base env msg with pong_sent := true }
    | MessageType.CHANNEL_POINTS_REDEMPTION =>
      { dispatch_base env msg with
        bot_delivery := some { event := Event.on_channel_points_redemption, args := [Arg.msg, Arg.reward] },
        mod_delivery := some { event := Event.on_channel_points_redemption, args := [Arg.msg, Arg.reward] },
        adhoc_delivery := some { event := Event.on_channel_points_redemption, args := [Arg.msg, Arg.reward] } }
    | MessageType.BITS =>
      { dispatch_base env msg with
        bot_delivery := some { event := Event.on_bits_donated, args := [Arg.msg, Arg.bits] },
        mod_delivery := some { event := Event.on_bits_donated, args := [Arg.msg, Arg.bits] },
        adhoc_delivery := some { event := Event.on_bits_donated, args := [Arg.channel, Arg.msg] } }
    | _ => dispatch_base env msg

/-- A loaded extension module: its name and whether its `unloaded()` hook
raises (and with what message). -/
structure Mod where
  name : String
  unload_raises : Option String
deriving DecidableEq, Repr

/-- The `unloaded()` call of one mod: either returns or raises. -/
def mod_unloaded (m : Mod) : Except String Unit :=
  match m.unload_raises with
  | none => Except.ok ()
  | some e => Except.error e

/-- Steps of the shutdown unload loop: a mod's unloaded() was awaited, or an
exception from it was caught and logged. -/
inductive UnloadStep
  | notified (modname : String)
  | logged (modname : String) (err : String)
deriving DecidableEq, Repr

/-- Shallow embedding of the shutdown unload loop (basebot.py lines
381-390): each mod's `unloaded()` is awaited inside try/except, so a raise
is caught, logged, and the loop continues with the remaining mods. -/
def unload_all_mods : List Mod → List UnloadStep
  | [] => []
  | m :: rest =>
    (match mod_unloaded m with
     | Except.ok _ => [UnloadStep.notified m.name]
     | Except.error e => [UnloadStep.notified m.name, UnloadStep.logged m.name e])
      ++ unload_all_mods rest

/-- The mods notified by a run of the unload loop, in order. -/
def notified_names : List UnloadStep → List String
  | [] => []
  | UnloadStep.notified n :: rest => n :: notified_names rest
  | UnloadStep.logged _ _ :: rest => notified_names rest

/-- The context a chat reply is delivered in. -/
inductive ReplyContext
  | channel
  | whisper
deriving DecidableEq, Repr

/-- Modelled from the spec: the reply routing of the Message collaborator —
a reply goes by whisper when the whisper flag is set or the triggering
message was itself a whisper, and in channel otherwise (spec sections 4.3
and 7; the Message class is not under src/). -/
def delivered_context (msg : Message) (r : Reply) : ReplyContext :=
  if r.whisper || Message.is_whisper msg then ReplyContext.whisper
  else ReplyContext.channel

/-- The originating context of an invocation: whisper for a whisper-invoked
command, channel for a channel-invoked one. -/
def originating_context (msg : Message) : ReplyContext :=
  if Message.is_whisper msg then ReplyContext.whisper else ReplyContext.channel

/-- Specification-side definition, written from the spec's wording (section
4.3): the five gates are applied in the order permission, disabled,
whitelist, cooldown, pre-execute hooks, and the first failing gate aborts
without any later gate being applied. -/
def spec_gate_trace (env : Env) (msg : Message) (cmd : Command) : List Gate :=
  if !permission_gate_passes env msg cmd then
    [Gate.permission]
  else if disabled_gate_fails env msg cmd then
    [Gate.permission, Gate.disabled]
  else if whitelist_gate_fails env cmd then
    [Gate.permission, Gate.disabled, Gate.whitelist]
  else if cooldown_gate_fails env msg cmd then
    [Gate.permission, Gate.disabled, Gate.whitelist, Gate.cooldown]
  else
    [Gate.permission, Gate.disabled, Gate.whitelist, Gate.cooldown, Gate.preexec]

/-! Concrete sample inputs used by the witnesses and counterexamples. -/

/-- Tags with no bits and no raid. -/
def sampleTags : Tags := { bits := 0, raid_viewer_count := 0 }

/-- A channel-invoked (privmsg) sample message. -/
def msgA : Message :=
  { type := MessageType.PRIVMSG, author := "alice", channel_name := "chan",
    parts := ["!ping"], tags := sampleTags, mention := "@alice" }

/-- A built-in sample command requiring the admin permission. -/
def cmdA : Command :=
  { name := "ping", fullname := "ping", context := CommandContext.BOTH,
    permission := some "admin", cooldown := 5, cooldown_bypass := "bypass",
    usage := "", is_custom := false }

/-- A built-in sample command with no permission requirement. -/
def cmdNoPerm : Command :=
  { name := "ping", fullname := "ping", context := CommandContext.BOTH,
    permission := none, cooldown := 5, cooldown_bypass := "bypass",
    usage := "", is_custom := false }

/-- A custom-command sample (wrapped in a CustomCommandAction). -/
def cmdCustom : Command :=
  CustomCommandAction { name := "greet", response := "hi" }

/-- An environment where every gate passes and the body succeeds. -/
def envBase : Env :=
  { pfx := "!",
    has_permission := fun _ _ _ => true,
    is_command_disabled := fun _ _ => false,
    is_command_whitelisted := fun _ => true,
    send_message_on_command_whitelist_deny := false,
    is_command_on_cooldown := fun _ _ _ => false,
    get_time_since_execute := fun _ _ => 0,
    on_permission_check := true,
    mod_permission_results := [],
    adhoc_permission_results := [],
    on_before_command_execute := true,
    mod_before_results := [],
    event_before_results := [],
    execute_raises := none }

/-- Loop environment with one built-in command registered under "!ping". -/
def envLoop : LoopEnv :=
  { nick := "botnick",
    commands := fun s => if s == "!ping" then some cmdA else none,
    get_custom_command := fun _ _ => none }

/-- A PING protocol line. -/
def msgPing : Message :=
  { type := MessageType.PING, author := "", channel_name := "",
    parts := [], tags := sampleTags, mention := "" }

/-- A BITS message carrying 100 bits. -/
def msgBits : Message :=
  { type := MessageType.BITS, author := "bob", channel_name := "chan",
    parts := ["cheer100"], tags := { bits := 100, raid_viewer_count := 0 },
    mention := "@bob" }

/-- A privmsg authored by the bot's own nick whose first token is a
registered command name. -/
def msgSelf : Message :=
  { type := MessageType.PRIVMSG, author := "botnick", channel_name := "chan",
    parts := ["!ping"], tags := sampleTags, mention := "@botnick" }

/-- Environment where the bot permission hook denies. -/
def envPermDenied : Env := { envBase with on_permission_check := false }

/-- Environment where the caller holds every permission (so also the
cooldown bypass) while the cooldown store would report the command on
cooldown. -/
def envBypassHeld : Env :=
  { envBase with is_command_on_cooldown := fun _ _ _ => true }

/-- Environment where the permission store denies exactly the admin
permission, so the spec's static permission component fails. -/
def envStaticDenied : Env :=
  { envBase with has_permission := fun _ _ p => !(p == "admin") }

/-- Environment where the caller holds no permission at all and the command
is on cooldown: the invocation passes the permission gate for a command
without a permission requirement and is denied at the cooldown gate. -/
def envCooldownDenied : Env :=
  { envBase with
    has_permission := fun _ _ _ => false
    is_command_on_cooldown := fun _ _ _ => true }

/-- Environment where the caller holds no permission and the command body
raises InvalidArgumentsError. -/
def envInvalidArgs : Env :=
  { envBase with
    has_permission := fun _ _ _ => false
    execute_raises := some "expected a number" }

/-- Environment where the invoked command is not whitelisted and the
whitelist deny message is disabled. -/
def envNotWhitelisted : Env :=
  { envBase with is_command_whitelisted := fun _ => false }

/-! Claim theorems. -/

/-- C1: for every command invocation denied at the permission,
disabled-command, whitelist, or cooldown gate, the cooldown record for the
(channel, command-fullname) pair is left unmodified and the command body is
never executed. -/
theorem gated_invocation_never_executes_or_writes_cooldown
    (env : Env) (msg : Message) (cmd : Command)
    (h : permission_gate_passes env msg cmd = false
      ∨ disabled_gate_fails env msg cmd = true
      ∨ whitelist_gate_fails env cmd = true
      ∨ cooldown_gate_fails env msg cmd = true) :
    (run_command env msg cmd).executed = false
      ∧ (run_command env msg cmd).cooldown_written = false := by
  unfold run_command
  rcases hE : env.execute_raises with _ | r <;>
    split_ifs <;> simp_all

/-- Witness for C1: with the bot permission hook denying, the sample
invocation neither executes nor writes the cooldown record. -/
theorem gated_invocation_witness :
    (run_command envPermDenied msgA cmdA).executed = false
      ∧ (run_command envPermDenied msgA cmdA).cooldown_written = false :=
  gated_invocation_never_executes_or_writes_cooldown envPermDenied msgA cmdA
    (Or.inl rfl)

/-- C2: the five gates are applied in exactly the order permission,
disabled, whitelist, cooldown, pre-execute hooks; the first failing gate
aborts without any later gate being evaluated (the evaluated-gate trace of
`run_command` equals the trace the spec's wording prescribes), the command
body runs exactly when all five gates pass, and the pre-execute hooks run
exactly when the first four gates pass. -/
theorem five_gates_in_order_first_failure_aborts
    (env : Env) (msg : Message) (cmd : Command) :
    (run_command env msg cmd).gates_evaluated = spec_gate_trace env msg cmd
      ∧ (run_command env msg cmd).executed =
        (permission_gate_passes env msg cmd
          && !disabled_gate_fails env msg cmd
          && !whitelist_gate_fails env cmd
          && !cooldown_gate_fails env msg cmd
          && before_execute_gate_passes env)
      ∧ (run_command env msg cmd).before_hooks_run =
        (permission_gate_passes env msg cmd
          && !disabled_gate_fails env msg cmd
          && !whitelist_gate_fails env cmd
          && !cooldown_gate_fails env msg cmd) := by
  unfold run_command spec_gate_trace
  rcases hE : env.execute_raises with _ | r <;>
    split_ifs <;> simp_all

/-- C3: when the invoking user holds the command's cooldown-bypass
permission, the cooldown store is never queried and the cooldown record is
never written, whatever the cooldown store would have answered. -/
theorem cooldown_bypass_never_queries_never_writes
    (env : Env) (msg : Message) (cmd : Command)
    (h : has_cooldown_bypass_permission env msg cmd = true) :
    (run_command env msg cmd).cooldown_queried = false
      ∧ (run_command env msg cmd).cooldown_written = false := by
  unfold run_command
  rcases hE : env.execute_raises with _ | r <;>
    split_ifs <;> simp_all [cooldown_gate_fails]

/-- Witness for C3: the sample caller holds every permission and the
cooldown store would report the command on cooldown, yet the store is not
queried and the record is not written. -/
theorem cooldown_bypass_witness :
    (run_command envBypassHeld msgA cmdA).cooldown_queried = false
      ∧ (run_command envBypassHeld msgA cmdA).cooldown_written = false :=
  cooldown_bypass_never_queries_never_writes envBypassHeld msgA cmdA rfl

/-- C5: whenever the static component of the permission composite —
`perms.has_permission(channel, user, cmd.permission)` for a set
`cmd.permission`, treated as allowed when unset — returns false, the
invocation is denied with the permission-denial whisper, however the other
permission hooks answered. -/
theorem static_permission_check_denies
    (env : Env) (msg : Message) (cmd : Command)
    (h : static_permission_check env msg cmd = false) :
    (run_command env msg cmd).executed = false
      ∧ (run_command env msg cmd).replies =
        [{ whisper := true, text := permission_denied_text msg cmd }] := by
  have hp : permission_gate_passes env msg cmd = false := by
    unfold permission_gate_passes trigger_event_on_permission_check
    simp [h]
  unfold run_command
  simp [hp]

/-- Witness for C5: with a permission store denying exactly the admin
permission, the sample command requiring admin is rejected with the
permission-denial whisper. -/
theorem static_permission_check_witness :
    (run_command envStaticDenied msgA cmdA).executed = false
      ∧ (run_command envStaticDenied msgA cmdA).replies =
        [{ whisper := true, text := permission_denied_text msgA cmdA }] :=
  static_permission_check_denies envStaticDenied msgA cmdA rfl

/-- A reply with the whisper flag set is delivered by whisper. -/
theorem delivered_context_whisper_flag (msg : Message) (t : String) :
    delivered_context msg { whisper := true, text := t } = ReplyContext.whisper := by
  simp [delivered_context]

/-- A reply without the whisper flag is delivered in the originating
context of the triggering message. -/
theorem delivered_context_plain (msg : Message) (t : String) :
    delivered_context msg { whisper := false, text := t } = originating_context msg := by
  simp [delivered_context, originating_context]

/-- C6 counterexample: a channel-invoked (privmsg) command denied at the
permission gate gets its single denial reply by whisper, not in the
originating channel context — refuting the claim that every user-visible
failure reply is sent in the originating context. -/
theorem permission_denial_counterexample :
    originating_context msgA = ReplyContext.channel
      ∧ ((run_command envPermDenied msgA cmdA).replies).map (delivered_context msgA)
          = [ReplyContext.whisper] := by
  constructor
  · rfl
  · rfl

/-- C6 amended: every user-visible failure of a command invocation
(permission denial, disabled command, whitelist denial with the deny
message enabled, cooldown active, invalid arguments) produces exactly one
chat reply; the permission-denial reply is always delivered by whisper,
while every other failure reply is delivered in the originating context of
the triggering message. -/
theorem user_visible_failures_reply_contexts
    (env : Env) (msg : Message) (cmd : Command) :
    (permission_gate_passes env msg cmd = false →
      ((run_command env msg cmd).replies).map (delivered_context msg)
        = [ReplyContext.whisper])
    ∧ (permission_gate_passes env msg cmd = true →
        disabled_gate_fails env msg cmd = true →
        ((run_command env msg cmd).replies).map (delivered_context msg)
          = [originating_context msg])
    ∧ (permission_gate_passes env msg cmd = true →
        disabled_gate_fails env msg cmd = false →
        whitelist_gate_fails env cmd = true →
        env.send_message_on_command_whitelist_deny = true →
        ((run_command env msg cmd).replies).map (delivered_context msg)
          = [originating_context msg])
    ∧ (permission_gate_passes env msg cmd = true →
        disabled_gate_fails env msg cmd = false →
        whitelist_gate_fails env cmd = false →
        cooldown_gate_fails env msg cmd = true →
        ((run_command env msg cmd).replies).map (delivered_context msg)
          = [originating_context msg])
    ∧ (permission_gate_passes env msg cmd = true →
        disabled_gate_fails env msg cmd = false →
        whitelist_gate_fails env cmd = false →
        cooldown_gate_fails env msg cmd = false →
        before_execute_gate_passes env = true →
        (env.execute_raises).isSome = true →
        ((run_command env msg cmd).replies).map (delivered_context msg)
          = [originating_context msg]) := by
  refine ⟨?_, ?_, ?_, ?_, ?_⟩ <;>
    intros <;>
    unfold run_command <;>
    rcases hE : env.execute_raises with _ | r <;>
    split_ifs <;>
    simp_all [delivered_context_whisper_flag, delivered_context_plain]

/-- Witness for C6 amended: a permission denial replies once by whisper; a
cooldown denial and an invalid-arguments failure reply once in the
originating (channel) context. -/
theorem user_visible_failures_witness :
    ((run_command envPermDenied msgA cmdA).replies).map (delivered_context msgA)
        = [ReplyContext.whisper]
      ∧ ((run_command envCooldownDenied msgA cmdNoPerm).replies).map (delivered_context msgA)
          = [originating_context msgA]
      ∧ ((run_command envInvalidArgs msgA cmdNoPerm).replies).map (delivered_context msgA)
          = [originating_context msgA] :=
  ⟨(user_visible_failures_reply_contexts envPermDenied msgA cmdA).1 rfl,
   (user_visible_failures_reply_contexts envCooldownDenied msgA cmdNoPerm).2.2.2.1
     rfl rfl rfl rfl,
   (user_visible_failures_reply_contexts envInvalidArgs msgA cmdNoPerm).2.2.2.2
     rfl rfl rfl rfl rfl rfl⟩

/-- C7: at shutdown every loaded extension module is notified of unload
exactly once, in load order, even when some modules' unloaded() hooks
raise: a raise is caught and logged and does not prevent the remaining
modules from being notified. -/
theorem every_mod_notified_exactly_once_on_shutdown (ms : List Mod) :
    notified_names (unload_all_mods ms) = ms.map Mod.name := by
  induction ms with
  | nil => rfl
  | cons m rest ih =>
    unfold unload_all_mods
    rcases h : mod_unloaded m with _ | e <;>
      simp [notified_names, ih]

/-- C8: a custom command skips the whitelist check entirely; a built-in
command missing from the whitelist never executes, and — when it reaches
the whitelist gate — replies exactly when the whitelist-deny-message flag
is enabled, with no reply at all when the flag is disabled. -/
theorem whitelist_gate_builtin_and_custom
    (env : Env) (msg : Message) (cmd : Command) :
    (cmd.is_custom = true →
      (run_command env msg cmd).whitelist_queried = false)
    ∧ (cmd.is_custom = false →
        env.is_command_whitelisted cmd.name = false →
        (run_command env msg cmd).executed = false)
    ∧ (cmd.is_custom = false →
        env.is_command_whitelisted cmd.name = false →
        permission_gate_passes env msg cmd = true →
        disabled_gate_fails env msg cmd = false →
        (run_command env msg cmd).replies =
          (if env.send_message_on_command_whitelist_deny then
            [{ whisper := false, text := whitelist_deny_text msg cmd }]
          else [])) := by
  refine ⟨?_, ?_, ?_⟩ <;>
    intros <;>
    unfold run_command <;>
    rcases hE : env.execute_raises with _ | r <;>
    split_ifs <;>
    simp_all [whitelist_gate_fails]

/-- Witness for C8: the sample custom command never queries the whitelist;
the sample built-in command, absent from the whitelist with the deny
message disabled, does not execute and sends no reply. -/
theorem whitelist_gate_witness :
    (run_command envBase msgA cmdCustom).whitelist_queried = false
      ∧ (run_command envNotWhitelisted msgA cmdA).executed = false
      ∧ (run_command envNotWhitelisted msgA cmdA).replies = [] := by
  refine ⟨?_, ?_, ?_⟩
  · exact (whitelist_gate_builtin_and_custom envBase msgA cmdCustom).1 rfl
  · exact (whitelist_gate_builtin_and_custom envNotWhitelisted msgA cmdA).2.1 rfl rfl
  · have h := (whitelist_gate_builtin_and_custom envNotWhitelisted msgA cmdA).2.2
      rfl rfl rfl rfl
    simpa using h

/-- A message that is not a privmsg and not a whisper is not a user
message. -/
theorem not_user_message_of_type
    (msg : Message) (h1 : Message.is_privmsg msg = false)
    (h2 : Message.is_whisper msg = false) :
    Message.is_user_message msg = false := by
  simp [Message.is_user_message, h1, h2]

/-- C4 counterexample: for a PING line the dispatch iteration does send a
PONG and schedules no type-specific reaction, but the unconditional
on_raw_message deliveries — a bot callback, an extension-module delivery
and an ad-hoc subscriber delivery — still fire for that line, refuting the
claim that no event fires for a PING line. -/
theorem ping_raw_message_events_counterexample :
    (dispatch envLoop msgPing).pong_sent = true
      ∧ (dispatch envLoop msgPing).raw_deliveries =
          [(Population.bot, { event := Event.on_raw_message, args := [Arg.msg] }),
           (Population.mod, { event := Event.on_raw_message, args := [Arg.msg] }),
           (Population.adhoc, { event := Event.on_raw_message, args := [Arg.msg] })]
      ∧ (dispatch envLoop msgPing).raw_deliveries ≠ [] := by
  refine ⟨rfl, rfl, by decide⟩

/-- C4 amended: for every inbound line classified as PING, the sole
type-specific reaction is sending a PONG reply — no command runs and no
type-specific event delivery is scheduled for any of the three listener
populations; only the unconditional on_raw_message deliveries, which fire
for every inbound line, fire for that line. -/
theorem ping_sole_type_specific_reaction_is_pong
    (env : LoopEnv) (msg : Message) (h : msg.type = MessageType.PING) :
    (dispatch env msg).pong_sent = true
      ∧ (dispatch env msg).command_run = false
      ∧ (dispatch env msg).bot_delivery = none
      ∧ (dispatch env msg).mod_delivery = none
      ∧ (dispatch env msg).adhoc_delivery = none
      ∧ (dispatch env msg).raw_deliveries = raw_message_deliveries := by
  have hu : Message.is_user_message msg = false := by
    apply not_user_message_of_type <;>
      simp [Message.is_privmsg, Message.is_whisper, h]
  simp [dispatch, dispatch_base, command_will_run, looked_up_command, hu, h]

/-- Witness for C4 amended: the concrete PING line. -/
theorem ping_sole_reaction_witness :
    (dispatch envLoop msgPing).pong_sent = true
      ∧ (dispatch envLoop msgPing).command_run = false
      ∧ (dispatch envLoop msgPing).bot_delivery = none
      ∧ (dispatch envLoop msgPing).mod_delivery = none
      ∧ (dispatch envLoop msgPing).adhoc_delivery = none
      ∧ (dispatch envLoop msgPing).raw_deliveries = raw_message_deliveries :=
  ping_sole_type_specific_reaction_is_pong envLoop msgPing rfl

/-- C9: for every BITS message, the bot callback and the extension-module
delivery receive the argument pair (msg, msg.tags.bits) while the ad-hoc
subscriber delivery receives (msg.channel, msg) — the three listener
populations do not all receive the same argument list. -/
theorem bits_delivery_argument_asymmetry
    (env : LoopEnv) (msg : Message) (h : msg.type = MessageType.BITS) :
    (dispatch env msg).bot_delivery =
        some { event := Event.on_bits_donated, args := [Arg.msg, Arg.bits] }
      ∧ (dispatch env msg).mod_delivery =
          some { event := Event.on_bits_donated, args := [Arg.msg, Arg.bits] }
      ∧ (dispatch env msg).adhoc_delivery =
          some { event := Event.on_bits_donated, args := [Arg.channel, Arg.msg] }
      ∧ ([Arg.channel, Arg.msg] : List Arg) ≠ [Arg.msg, Arg.bits] := by
  have hu : Message.is_user_message msg = false := by
    apply not_user_message_of_type <;>
      simp [Message.is_privmsg, Message.is_whisper, h]
  refine ⟨?_, ?_, ?_, by decide⟩ <;>
    simp [dispatch, dispatch_base, command_will_run, looked_up_command, hu, h]

/-- Witness for C9: the concrete BITS message. -/
theorem bits_delivery_witness :
    (dispatch envLoop msgBits).adhoc_delivery =
        some { event := Event.on_bits_donated, args := [Arg.channel, Arg.msg] }
      ∧ (dispatch envLoop msgBits).bot_delivery =
          some { event := Event.on_bits_donated, args := [Arg.msg, Arg.bits] } :=
  ⟨(bits_delivery_argument_asymmetry envLoop msgBits rfl).2.2.1,
   (bits_delivery_argument_asymmetry envLoop msgBits rfl).1⟩

/-- The command-run flag of a dispatch iteration is the CommandContext test
applied to the guarded lookup's outcome. -/
theorem dispatch_command_run_eq (env : LoopEnv) (msg : Message) :
    (dispatch env msg).command_run = command_will_run env msg := by
  rcases msg with ⟨t, a, c, p, tg, mn⟩
  unfold dispatch
  cases hcw : command_will_run env ⟨t, a, c, p, tg, mn⟩
  · cases t <;> simp [dispatch_base, apply_ite]
  · simp [dispatch_base]

/-- The found-command field of a dispatch iteration is the guarded
lookup's outcome. -/
theorem dispatch_command_found_eq (env : LoopEnv) (msg : Message) :
    (dispatch env msg).command_found = looked_up_command env msg := by
  rcases msg with ⟨t, a, c, p, tg, mn⟩
  unfold dispatch
  cases hcw : command_will_run env ⟨t, a, c, p, tg, mn⟩
  · cases t <;> simp [dispatch_base, apply_ite]
  · simp [dispatch_base]

/-- The lookup-performed flag of a dispatch iteration is the guard of
lines 305-307. -/
theorem dispatch_lookup_performed_eq (env : LoopEnv) (msg : Message) :
    (dispatch env msg).command_lookup_performed =
      (Message.is_user_message msg && msg.author != env.nick) := by
  rcases msg with ⟨t, a, c, p, tg, mn⟩
  unfold dispatch
  cases hcw : command_will_run env ⟨t, a, c, p, tg, mn⟩
  · cases t <;> simp [dispatch_base, apply_ite]
  · simp [dispatch_base]

/-- C10: for a message authored by the bot's own nick, or one that is not a
user message (neither privmsg nor whisper), command lookup is never
performed and no command is ever run, whatever its first token; and
whenever a command does run, it was the command the guarded lookup found
and its CommandContext flag covers the message's context. -/
theorem own_or_nonuser_message_never_runs_commands
    (env : LoopEnv) (msg : Message) :
    ((msg.author = env.nick ∨ Message.is_user_message msg = false) →
      (dispatch env msg).command_lookup_performed = false
        ∧ (dispatch env msg).command_run = false)
    ∧ ((dispatch env msg).command_run = true →
        ∃ c, (dispatch env msg).command_found = some c
          ∧ command_context_matches msg c = true) := by
  constructor
  · intro h
    have hlook : looked_up_command env msg = none := by
      unfold looked_up_command
      rcases h with h | h <;> simp [h]
    have hrun : command_will_run env msg = false := by
      unfold command_will_run
      rw [hlook]
    rw [dispatch_lookup_performed_eq, dispatch_command_run_eq, hrun]
    rcases h with h | h <;> simp [h]
  · intro h
    rw [dispatch_command_run_eq] at h
    rw [dispatch_command_found_eq]
    unfold command_will_run at h
    rcases hc : looked_up_command env msg with _ | c
    · rw [hc] at h
      simp at h
    · rw [hc] at h
      exact ⟨c, rfl, h⟩

/-- Witness for C10: a privmsg authored by the bot's own nick whose first
token names a registered command neither looks up nor runs a command, and
the sample user-authored invocation that does run satisfies the context
test. -/
theorem own_message_never_runs_witness :
    ((dispatch envLoop msgSelf).command_lookup_performed = false
        ∧ (dispatch envLoop msgSelf).command_run = false)
      ∧ (∃ c, (dispatch envLoop msgA).command_found = some c
          ∧ command_context_matches msgA c = true) :=
  ⟨(own_or_nonuser_message_never_runs_commands envLoop msgSelf).1 (Or.inl rfl),
   (own_or_nonuser_message_never_runs_commands envLoop msgA).2 (by decide)⟩

end TwitchBot
